import Mathlib

/-!
Verification development for the `bank-data` repository (the `condenser`
package: `common.py`, `download.py`, `merge.py`).

The Python code is shallowly embedded: pure functions become Lean
functions, Python runtime exceptions are modelled with `Except PyError`,
Python `dict`s become insertion-ordered association lists, and Python
`set`s become lists whose membership is the set membership. Machine-level
concerns (actual file and network I/O) are abstracted: the network is a
function from URL to response, and the spreadsheet writer is modelled by
the list of tabs it emits.
-/

/-- Kinds of Python runtime exception raised by the embedded code. -/
inductive PyError where
  /-- `dict` subscript on an absent key. -/
  | keyError
  /-- tuple-unpacking failure (wrong number of elements). -/
  | valueError
  /-- list subscript out of range. -/
  | indexError
  /-- `requests` `raise_for_status` on a 4xx/5xx response. -/
  | httpError
  deriving DecidableEq

deriving instance DecidableEq for Except

/-- Whether an embedded Python computation finished without an exception. -/
def isOk {α : Type} (e : Except PyError α) : Bool :=
  match e with
  | .ok _ => true
  | .error _ => false

/-- Python list-subscript index normalisation: a negative index counts from
the end of the list (`a[-1]` is the last element). -/
def pyNorm (len : Nat) (i : Int) : Int :=
  if i < 0 then i + len else i

/-- Python list subscript `arr[i]`: after normalisation of a negative index,
an in-range subscript yields the element and an out-of-range one raises
`IndexError`. -/
def pyIndex (arr : List String) (i : Int) : Except PyError String :=
  if 0 ≤ pyNorm arr.length i then
    match arr.get? (pyNorm arr.length i).toNat with
    | some s => .ok s
    | none => .error .indexError
  else
    .error .indexError

theorem pyNorm_neg (len : Nat) (i : Int) (h : i < 0) : pyNorm len i = i + len := by
  unfold pyNorm
  rw [if_pos h]

theorem pyNorm_of_nonneg (len : Nat) (i : Int) (h : 0 ≤ i) : pyNorm len i = i := by
  unfold pyNorm
  rw [if_neg (by omega)]

theorem pyIndex_isOk (arr : List String) (i : Int) :
    isOk (pyIndex arr i) = true ↔ (-(arr.length : Int) ≤ i ∧ i < (arr.length : Int)) := by
  rcases lt_or_le i 0 with hi | hi
  · unfold pyIndex
    simp only [pyNorm_neg _ _ hi]
    by_cases h0 : (0 : Int) ≤ i + arr.length
    · rw [if_pos h0]
      cases hg : arr.get? (i + (arr.length : Int)).toNat with
      | none =>
        rw [List.get?_eq_none] at hg
        exact iff_of_false (by decide) (by omega)
      | some s =>
        have hlt : ((i + (arr.length : Int)).toNat) < arr.length := by
          by_contra hge
          rw [List.get?_eq_none.mpr (by omega)] at hg
          cases hg
        exact iff_of_true rfl (by omega)
    · rw [if_neg h0]
      exact iff_of_false (by decide) (by omega)
  · unfold pyIndex
    simp only [pyNorm_of_nonneg _ _ hi]
    rw [if_pos hi]
    cases hg : arr.get? i.toNat with
    | none =>
      rw [List.get?_eq_none] at hg
      exact iff_of_false (by decide) (by omega)
    | some s =>
      have hlt : i.toNat < arr.length := by
        by_contra hge
        rw [List.get?_eq_none.mpr (by omega)] at hg
        cases hg
      exact iff_of_true rfl (by omega)

/-! ### common.py -/

/-- `class Month`: a wrapper around an integer month index. The constructor
`__init__` stores the index without any validation. -/
structure Month where
  monthIndex : Int
  deriving DecidableEq

/-- The local list `arr` inside `Month.short_name`. -/
def monthShortNames : List String :=
  ["jan", "feb", "mar", "apr", "may", "jun", "jul", "aug", "sep", "oct", "nov", "dec"]

/-- `Month.short_name`: subscripts the twelve-element list with the stored
index, with Python subscript semantics (negative wrap, `IndexError` beyond
the wrap range). -/
def Month.shortName (m : Month) : Except PyError String :=
  pyIndex monthShortNames m.monthIndex

/-- `Month.numerical`: returns `month_index + 1` unconditionally. -/
def Month.numerical (m : Month) : Int :=
  m.monthIndex + 1

/-- `calendar.month_name` from the Python standard library: a thirteen-entry
sequence whose entry 0 is the empty string. -/
def calendarMonthNames : List String :=
  ["", "January", "February", "March", "April", "May", "June", "July",
   "August", "September", "October", "November", "December"]

/-- `Month.__str__`: `calendar.month_name[1 + month_index]`. -/
def Month.fullName (m : Month) : Except PyError String :=
  pyIndex calendarMonthNames (1 + m.monthIndex)

/-- `Month.all_months`: the twelve months with indices 0 through 11. -/
def Month.allMonths : List Month :=
  (List.range 12).map (fun monthIndex => ⟨(monthIndex : Int)⟩)

/-- `class MonthlyDataReport`: a monthly report identity, `(year, month)`. -/
structure MonthlyDataReport where
  year : Int
  month : Month
  deriving DecidableEq

/-- `MonthlyDataReport.locate_excel_file`: the f-string
`data_dir/year-month.numerical().xlsx`. -/
def MonthlyDataReport.locateExcelFile (report : MonthlyDataReport) (dataDir : String) : String :=
  dataDir ++ "/" ++ toString report.year ++ "-" ++ toString report.month.numerical ++ ".xlsx"

/-- Python `str.lower()`: lowercase the string character by character. -/
def pyLower (s : String) : String :=
  String.mk (s.data.map Char.toLower)

/-- Python `short_month[0].upper() + short_month[1:]` — uppercase the first
character; subscripting an empty string raises `IndexError`. -/
def capitalizeShort (s : String) : Except PyError String :=
  match s.data with
  | [] => .error .indexError
  | c :: rest => .ok (String.mk (c.toUpper :: rest))

/-- `MonthlyDataReport.locate_possible_urls`: the eight candidate URL
templates, built from the two-digit year (`str(year)[2:]`), the short month
name, its capitalised variant, and the lowercased full month name. -/
def MonthlyDataReport.locatePossibleUrls (report : MonthlyDataReport) :
    Except PyError (List String) := do
  let shortYear := (toString report.year).drop 2
  let shortMonth ← report.month.shortName
  let capitalShortName ← capitalizeShort shortMonth
  let fullMonth ← report.month.fullName
  let lowerMonth := pyLower fullMonth
  pure [
    "https://www.bb.org.bd/pub/monthly/econtrds/et" ++ shortMonth ++ shortYear ++ ".xlsx",
    "https://www.bb.org.bd/pub/monthly/econtrds/econtrends_" ++ fullMonth
      ++ toString report.year ++ ".xlsx",
    "https://www.bb.org.bd/pub/monthly/econtrds/econtrends_" ++ lowerMonth
      ++ toString report.year ++ ".xlsx",
    "https://www.bb.org.bd/pub/monthly/econtrds/ET" ++ capitalShortName ++ shortYear ++ ".xlsx",
    "https://www.bb.org.bd/pub/monthly/econtrds/econtrends_" ++ shortMonth
      ++ toString report.year ++ ".xlsx",
    "https://www.bb.org.bd/pub/monthly/econtrds/" ++ shortMonth ++ shortYear
      ++ "/statisticaltable.xlsx",
    "https://www.bb.org.bd/pub/monthly/econtrds/" ++ shortMonth ++ shortYear
      ++ "/statisticaltable.xls",
    "https://www.bb.org.bd/pub/monthly/econtrds/" ++ lowerMonth ++ shortYear
      ++ "/statisticaltable.xlsx"]

/-- `MonthlyDataReport.has_no_data`: membership of
`(month.short_name(), year)` in the literal exception list
`[("nov", 2015)]`. -/
def MonthlyDataReport.hasNoData (report : MonthlyDataReport) : Except PyError Bool := do
  let shortMonth ← report.month.shortName
  pure (([("nov", (2015 : Int))] : List (String × Int)).contains (shortMonth, report.year))

/-! ### download.py -/

/-- The observable part of a `requests.get` result: the final HTTP status
code and the final URL after any redirects were followed. -/
structure HttpResponse where
  statusCode : Nat
  finalUrl : String
  deriving DecidableEq

/-- The `for url in urls` loop body of `Download.download_if_possible`: a 404
skips to the next candidate; any other 4xx/5xx status raises through
`raise_for_status`; a final URL outside the candidate list (a redirect)
also skips to the next candidate; otherwise the body is saved and the loop
returns `True`. An exhausted loop returns `False`. -/
def downloadLoop (resp : String → HttpResponse) (urls : List String) :
    List String → Except PyError Bool
  | [] => .ok false
  | url :: rest =>
    if (resp url).statusCode = 404 then
      downloadLoop resp urls rest
    else if 400 ≤ (resp url).statusCode ∧ (resp url).statusCode < 600 then
      .error .httpError
    else if (urls.contains (resp url).finalUrl) = false then
      downloadLoop resp urls rest
    else
      .ok true

/-- `Download.download_if_possible`: `True` immediately when the local file
already exists, otherwise the candidate-URL loop over the full list. -/
def Download.downloadIfPossible (fileAlreadyExists : Bool) (resp : String → HttpResponse)
    (urls : List String) : Except PyError Bool :=
  if fileAlreadyExists then .ok true
  else downloadLoop resp urls urls

/-- Python `range(lo, hi)` over integers. -/
def intRange (lo hi : Int) : List Int :=
  (List.range (hi - lo).toNat).map (fun k => lo + (k : Int))

/-- The reports for which `Download.download_new` reaches the call to
`download_if_possible`: every `(year, month)` with
`year in range(2012, current_year() + 1)` and `month in Month.all_months()`,
except those skipped by the `if report.has_no_data(): continue` guard. -/
def Download.downloadNewAttempts (currentYear : Int) : List MonthlyDataReport :=
  (intRange 2012 (currentYear + 1)).flatMap (fun year =>
    Month.allMonths.filterMap (fun month =>
      if MonthlyDataReport.hasNoData ⟨year, month⟩ = .ok true then none
      else some ⟨year, month⟩))

/-! ### merge.py -/

/-- A spreadsheet cell value, passed through verbatim by the merge design. -/
inductive CellValue where
  | num (n : Int)
  | text (s : String)
  | blank
  deriving DecidableEq

/-- `class RowData`: a dict from column label to cell value, kept here as an
insertion-ordered association list. -/
structure RowData where
  data : List (String × CellValue)
  deriving DecidableEq

/-- `class Timestamp`: day, month and year fields. The class defines no
`__eq__` or `__hash__`, so Python compares `Timestamp` dict keys by object
identity; `objId` stands for that identity. -/
structure Timestamp where
  objId : Nat
  day : Int
  month : Int
  year : Int
  deriving DecidableEq

/-- `class Sheet`: a set of column labels (a list whose membership is the
set) and a dict from `Timestamp` key to `RowData`. -/
structure Sheet where
  columns : List String
  rows : List (Timestamp × RowData)
  deriving DecidableEq

/-- `Sheet.ensure_column`: `self.columns.add(column)` — idempotent set
insertion. -/
def Sheet.ensureColumn (sh : Sheet) (column : String) : Sheet :=
  { sh with columns := if sh.columns.contains column then sh.columns else sh.columns ++ [column] }

/-- Python tuple unpacking of one string into two targets, as performed by
`for (col, val) in row.data`: iterating a dict yields its keys, and each
key string is unpacked character by character — a key of length two yields
its two characters, any other length raises `ValueError`. -/
def unpackPair (s : String) : Except PyError (String × String) :=
  match s.data with
  | [a, b] => .ok (String.mk [a], String.mk [b])
  | _ => .error .valueError

/-- The `for (col, val) in row.data: self.ensure_column(col)` loop of
`Sheet.add_row`, run over the dict keys of the row. -/
def Sheet.ensureColumnsLoop (sh : Sheet) : List String → Except PyError Sheet
  | [] => .ok sh
  | key :: rest => do
    let (col, _val) ← unpackPair key
    Sheet.ensureColumnsLoop (sh.ensureColumn col) rest

/-- Python `self.rows[timestamp] = row` where the dict key type has default
(identity) equality: an entry whose key is the same object is overwritten
in place, any other key — equal fields or not — appends a new entry. -/
def dictInsertById (rows : List (Timestamp × RowData)) (ts : Timestamp) (row : RowData) :
    List (Timestamp × RowData) :=
  if rows.any (fun p => p.1.objId == ts.objId) then
    rows.map (fun p => if p.1.objId == ts.objId then (p.1, row) else p)
  else
    rows ++ [(ts, row)]

/-- `Sheet.add_row`: the column loop followed by the dict store of the row
under its timestamp key. -/
def Sheet.addRow (sh : Sheet) (timestamp : Timestamp) (row : RowData) :
    Except PyError Sheet := do
  let sh2 ← Sheet.ensureColumnsLoop sh (row.data.map Prod.fst)
  pure { sh2 with rows := dictInsertById sh2.rows timestamp row }

/-- A source spreadsheet file as `openpyxl.load_workbook` would expose it:
its path and, per tab, the single row of column-label/value pairs that tab
contributes. -/
structure SourceFile where
  path : String
  tabs : List (String × List (String × CellValue))
  deriving DecidableEq

/-- `class MergeXL`: `__init__` sets `self.sheets = dict()`. -/
structure MergeXL where
  sheets : List (String × Sheet)
  deriving DecidableEq

/-- The engine state right after `MergeXL.__init__`. -/
def MergeXL.new : MergeXL := ⟨[]⟩

/-- `MergeXL.add_source`: the body loads the workbook into a local variable
and then falls off the end of the function — the loaded content is
discarded and the engine state is left untouched. -/
def MergeXL.addSource (engine : MergeXL) (sourceXl : SourceFile) : MergeXL :=
  engine

/-- A tab of the output workbook: its name, header row and data rows. -/
structure OutputTab where
  name : String
  header : List String
  dataRows : List (List CellValue)
  deriving DecidableEq

/-- `MergeXL.write_to`: the body is `pass`, so the list of tabs written to
the output workbook is empty — no output is produced at all. -/
def MergeXL.writeTo (engine : MergeXL) (output : String) : List OutputTab :=
  []

/-- `MergeXL.get_or_create_sheet`: `existing = self.sheets[name]` raises
`KeyError` when `name` is absent; when present the stored value is a
`Sheet` object, never `None`, so the `if existing is not None` test passes
and the existing sheet is returned with the engine unchanged. The
create-and-store branch after that test is unreachable. -/
def MergeXL.getOrCreateSheet (engine : MergeXL) (name : String) :
    Except PyError (Sheet × MergeXL) :=
  match engine.sheets.lookup name with
  | none => .error .keyError
  | some existing => .ok (existing, engine)

/-! ### Concrete inputs used by the claim theorems -/

/-- A well-formed source spreadsheet: one tab named Prices whose row has the
single column label A. -/
def demoSourceFile : SourceFile :=
  ⟨"data/2021-1.xlsx", [("Prices", [("A", CellValue.num 3)])]⟩

/-- An engine state that already holds one accumulated sheet. -/
def demoEngine : MergeXL :=
  ⟨[("Prices", ⟨["A"], [(⟨0, 1, 1, 2021⟩, ⟨[("A", CellValue.num 3)]⟩)]⟩)]⟩

/-- A timestamp object for the first day of May 2021. -/
def tsFirst : Timestamp := ⟨0, 1, 5, 2021⟩

/-- A distinct timestamp object with the same day, month and year fields. -/
def tsSecond : Timestamp := ⟨1, 1, 5, 2021⟩

/-- A row whose dict has the two-character column label XY. -/
def rowXY1 : RowData := ⟨[("XY", CellValue.num 1)]⟩

/-- A second, different row under the same two-character column label. -/
def rowXY2 : RowData := ⟨[("XY", CellValue.num 2)]⟩

/-- A row with the two-character column label AB. -/
def rowAB : RowData := ⟨[("AB", CellValue.num 5)]⟩

/-- A row with an ordinary multi-character column label. -/
def rowAmount : RowData := ⟨[("Amount", CellValue.num 5)]⟩

/-! ### Claim theorems -/

/-- C1: the claim says the column set of the sheet for a tab equals the
union of the column labels seen for that tab across the sources. The code
violates it: `add_source` loads the workbook and discards it, so after
feeding a source whose Prices tab carries column A, the engine holds no
sheet named Prices at all — its column set is not the union. -/
theorem c1_add_source_discards_content :
    ((List.foldl MergeXL.addSource MergeXL.new [demoSourceFile]).sheets.lookup "Prices" = none)
    ∧ demoSourceFile.tabs.map Prod.fst = ["Prices"]
    ∧ demoSourceFile.tabs.flatMap (fun t => t.2.map Prod.fst) = ["A"] :=
  ⟨rfl, rfl, rfl⟩

/-- C2: the claim says `write_to` emits one output tab per accumulated
sheet, rows sorted by timestamp. The code violates it: the body of
`write_to` is `pass`, so even for an engine holding one sheet no output
tab is written. -/
theorem c2_write_to_emits_no_tabs :
    MergeXL.writeTo demoEngine "merged.xlsx" = []
    ∧ demoEngine.sheets.map Prod.fst = ["Prices"] :=
  ⟨rfl, rfl⟩

/-- C3: the claim says `get_or_create_sheet` never fails on a first-seen
name and creates the sheet instead. The code violates it: on the empty
engine, `self.sheets[name]` raises `KeyError` before the create branch can
run. -/
theorem c3_get_or_create_sheet_key_error :
    MergeXL.getOrCreateSheet MergeXL.new "Prices" = .error .keyError :=
  rfl

/-- C4: the claim says that after `add_row` the column set contains every
column key of every stored row. The code violates it: the loop
`for (col, val) in row.data` iterates the dict keys and unpacks each key
string, so a row keyed by the label AB stores the row intact but adds only
the character A to the column set, leaving AB outside it; a label whose
length is not two makes `add_row` raise `ValueError` instead. -/
theorem c4_add_row_breaks_column_invariant :
    Sheet.addRow ⟨[], []⟩ tsFirst rowAB = .ok ⟨["A"], [(tsFirst, rowAB)]⟩
    ∧ rowAB.data.map Prod.fst = ["AB"]
    ∧ (["A"].contains "AB") = false
    ∧ Sheet.addRow ⟨[], []⟩ tsFirst rowAmount = .error .valueError :=
  ⟨rfl, rfl, rfl, rfl⟩

/-- C5: the claim says a second `add_row` under a timestamp with equal
(day, month, year) fields replaces the first row. The code violates it:
`Timestamp` defines no `__eq__`/`__hash__`, so the dict keys of `rows`
compare by object identity and the two rows are both kept — the mapping
ends with two entries for the same calendar date. -/
theorem c5_equal_field_timestamps_not_replaced :
    ((Sheet.addRow ⟨[], []⟩ tsFirst rowXY1).bind
      (fun s1 => Sheet.addRow s1 tsSecond rowXY2))
      = .ok ⟨["X"], [(tsFirst, rowXY1), (tsSecond, rowXY2)]⟩
    ∧ (tsFirst.day, tsFirst.month, tsFirst.year) = (tsSecond.day, tsSecond.month, tsSecond.year)
    ∧ [(tsFirst, rowXY1), (tsSecond, rowXY2)].length = 2 :=
  ⟨rfl, rfl, rfl⟩

/-- C6 counterexample: the claim says that for every index outside [0, 11]
querying the short name or the numerical form fails. At index 12 the
numerical form returns 13 without failing, and at index -1 the short name
returns dec (Python negative indexing) without failing. -/
theorem c6_out_of_range_returns_values :
    Month.numerical ⟨12⟩ = 13 ∧ Month.shortName ⟨-1⟩ = .ok "dec" :=
  ⟨rfl, rfl⟩

/-- C6 amended: constructing a `Month` never validates the index. For every
integer index, `numerical` returns index + 1 without failing; `short_name`
succeeds exactly for indices in [-12, 11] (indices in [-12, -1] wrap to the
end of the name list, Python style) and raises `IndexError` — not an
`InvalidMonthIndex` — outside that range. In particular no failure occurs
on [0, 11]. -/
theorem c6_month_index_behavior (i : Int) :
    Month.numerical ⟨i⟩ = i + 1
    ∧ (isOk (Month.shortName ⟨i⟩) = true ↔ (-12 ≤ i ∧ i ≤ 11)) := by
  refine ⟨rfl, ?_⟩
  have h := pyIndex_isOk monthShortNames i
  have hlen : ((monthShortNames.length : Nat) : Int) = 12 := rfl
  rw [hlen] at h
  rw [Month.shortName, h]
  omega

/-- A candidate URL that fails in the sense of claim C7: the response is an
HTTP 404, or a redirect landed on a final URL outside the candidate list. -/
def urlFails (resp : String → HttpResponse) (urls : List String) (url : String) : Prop :=
  (resp url).statusCode = 404
  ∨ ((resp url).statusCode = 200 ∧ (urls.contains (resp url).finalUrl) = false)

theorem downloadLoop_all_fail (resp : String → HttpResponse) (urls : List String) :
    ∀ pending : List String, (∀ u ∈ pending, urlFails resp urls u) →
      downloadLoop resp urls pending = .ok false := by
  intro pending
  induction pending with
  | nil => intro _; rfl
  | cons url rest ih =>
    intro h
    have hu := h url (List.mem_cons_self url rest)
    have hrest := fun u hm => h u (List.mem_cons_of_mem url hm)
    rcases hu with h404 | ⟨h200, hred⟩
    · simp only [downloadLoop]
      rw [if_pos h404]
      exact ih hrest
    · simp only [downloadLoop]
      rw [if_neg (by omega), if_neg (by omega), if_pos hred]
      exact ih hrest

/-- C7: for a report whose candidate URLs all fail — each answering 404 or
redirecting off the candidate list — `download_if_possible` returns false
rather than raising, and each failing candidate merely advances the loop
to the next candidate in order. -/
theorem c7_all_candidates_fail_returns_false (report : MonthlyDataReport)
    (urls : List String) (resp : String → HttpResponse)
    (hurls : report.locatePossibleUrls = .ok urls)
    (hfail : ∀ u ∈ urls, urlFails resp urls u) :
    Download.downloadIfPossible false resp urls = .ok false
    ∧ (∀ url rest, urlFails resp urls url →
        downloadLoop resp urls (url :: rest) = downloadLoop resp urls rest) := by
  constructor
  · show downloadLoop resp urls urls = .ok false
    exact downloadLoop_all_fail resp urls urls hfail
  · intro url rest hu
    rcases hu with h404 | ⟨h200, hred⟩
    · simp only [downloadLoop]
      rw [if_pos h404]
    · simp only [downloadLoop]
      rw [if_neg (by omega), if_neg (by omega), if_pos hred]

/-- A network that answers 404 for every URL. -/
def respAll404 : String → HttpResponse := fun _ => ⟨404, ""⟩

/-- The computed candidate list of the January 2021 report. -/
def demoUrls : List String := [
  "https://www.bb.org.bd/pub/monthly/econtrds/etjan21.xlsx",
  "https://www.bb.org.bd/pub/monthly/econtrds/econtrends_January2021.xlsx",
  "https://www.bb.org.bd/pub/monthly/econtrds/econtrends_january2021.xlsx",
  "https://www.bb.org.bd/pub/monthly/econtrds/ETJan21.xlsx",
  "https://www.bb.org.bd/pub/monthly/econtrds/econtrends_jan2021.xlsx",
  "https://www.bb.org.bd/pub/monthly/econtrds/jan21/statisticaltable.xlsx",
  "https://www.bb.org.bd/pub/monthly/econtrds/jan21/statisticaltable.xls",
  "https://www.bb.org.bd/pub/monthly/econtrds/january21/statisticaltable.xlsx"]

/-- C7 witness: the theorem applied to the January 2021 report, its
candidate list, and the all-404 network. -/
theorem c7_witness :
    Download.downloadIfPossible false respAll404 demoUrls = .ok false :=
  (c7_all_candidates_fail_returns_false ⟨2021, ⟨0⟩⟩ demoUrls respAll404 (by decide)
    (fun u _ => Or.inl rfl)).1

/-- The local filename contract as the spec words it:
directory/year-monthNumber.xlsx with a 1-based month number. -/
def canonicalFilenameSpec (directory : String) (year : Int) (monthNumber : Int) : String :=
  directory ++ "/" ++ toString year ++ "-" ++ toString monthNumber ++ ".xlsx"

/-- C8: for every valid month index, `locate_excel_file` equals the
canonical directory/year-monthNumber.xlsx name, the month number is the
1-based index, and its decimal form carries no leading zero. Determinism
in (year, month, directory) is immediate: the derivation is a pure
function of exactly those data. -/
theorem c8_canonical_filename (dataDir : String) (year : Int) (i : Int)
    (h0 : 0 ≤ i) (h1 : i ≤ 11) :
    MonthlyDataReport.locateExcelFile ⟨year, ⟨i⟩⟩ dataDir
      = canonicalFilenameSpec dataDir year (i + 1)
    ∧ Month.numerical ⟨i⟩ = i + 1
    ∧ (toString (Month.numerical ⟨i⟩)).data.head? ≠ some '0' := by
  refine ⟨rfl, rfl, ?_⟩
  interval_cases i <;> decide

/-- C8 witness: the theorem applied to directory data, year 2021, month
index 0. -/
theorem c8_witness :
    MonthlyDataReport.locateExcelFile ⟨2021, ⟨0⟩⟩ "data"
      = canonicalFilenameSpec "data" 2021 (0 + 1)
    ∧ Month.numerical ⟨0⟩ = 0 + 1
    ∧ (toString (Month.numerical ⟨0⟩)).data.head? ≠ some '0' :=
  c8_canonical_filename "data" 2021 0 (by decide) (by decide)

/-- C9: `has_no_data` holds exactly for the listed exception: true at
November 2015 (month index 10), false at November 2016, and false at every
other valid (year, month index) pair. -/
theorem c9_has_no_data_exactly_nov_2015 (year : Int) (i : Int)
    (h0 : 0 ≤ i) (h1 : i ≤ 11) :
    MonthlyDataReport.hasNoData ⟨2015, ⟨10⟩⟩ = .ok true
    ∧ MonthlyDataReport.hasNoData ⟨2016, ⟨10⟩⟩ = .ok false
    ∧ ((year, i) ≠ ((2015 : Int), (10 : Int)) →
        MonthlyDataReport.hasNoData ⟨year, ⟨i⟩⟩ = .ok false) := by
  refine ⟨rfl, rfl, ?_⟩
  intro hne
  interval_cases i
  all_goals try rfl
  have hy : year ≠ 2015 := by
    intro hEq
    exact hne (by rw [hEq])
  have hred : MonthlyDataReport.hasNoData ⟨year, ⟨10⟩⟩
      = .ok ((year == (2015 : Int)) || false) := rfl
  rw [hred, beq_eq_false_iff_ne.mpr hy]
  rfl

/-- C9 witness: the theorem applied at year 2016, month index 9, using the
general branch. -/
theorem c9_witness :
    MonthlyDataReport.hasNoData ⟨2016, ⟨9⟩⟩ = .ok false :=
  (c9_has_no_data_exactly_nov_2015 2016 9 (by decide) (by decide)).2.2 (by decide)

/-- C10: every report on which `download_new` invokes
`download_if_possible` has a false `has_no_data()` — the guard
`if report.has_no_data(): continue` filters the rest out — so the November
2015 report is never requested, whatever the current year. -/
theorem c10_download_new_skips_no_data (currentYear : Int) (report : MonthlyDataReport)
    (h : report ∈ Download.downloadNewAttempts currentYear) :
    MonthlyDataReport.hasNoData report = .ok false
    ∧ report ≠ ⟨2015, ⟨10⟩⟩ := by
  simp only [Download.downloadNewAttempts, List.mem_flatMap, List.mem_filterMap] at h
  obtain ⟨year, hyear, month, hmonth, hcond⟩ := h
  by_cases hnd : MonthlyDataReport.hasNoData ⟨year, month⟩ = .ok true
  · rw [if_pos hnd] at hcond
    cases hcond
  · rw [if_neg hnd] at hcond
    cases hcond
    rw [show Month.allMonths
        = [⟨0⟩, ⟨1⟩, ⟨2⟩, ⟨3⟩, ⟨4⟩, ⟨5⟩, ⟨6⟩, ⟨7⟩, ⟨8⟩, ⟨9⟩, ⟨10⟩, ⟨11⟩] from rfl] at hmonth
    simp only [List.mem_cons, List.not_mem_nil, or_false] at hmonth
    rcases hmonth with rfl | rfl | rfl | rfl | rfl | rfl | rfl | rfl | rfl | rfl | rfl | rfl
    all_goals try exact ⟨rfl, by simp⟩
    constructor
    · have hred : MonthlyDataReport.hasNoData ⟨year, ⟨10⟩⟩
          = .ok ((year == (2015 : Int)) || false) := rfl
      rw [hred] at hnd ⊢
      cases hy : (year == (2015 : Int)) with
      | true =>
        rw [hy] at hnd
        exact absurd rfl hnd
      | false => rfl
    · intro hEq
      rw [hEq] at hnd
      exact hnd rfl

/-- C10 witness: the theorem applied to the January 2012 report, which is
among the attempted downloads when the current year is 2012. -/
theorem c10_witness :
    MonthlyDataReport.hasNoData ⟨2012, ⟨0⟩⟩ = .ok false
    ∧ (⟨2012, ⟨0⟩⟩ : MonthlyDataReport) ≠ ⟨2015, ⟨10⟩⟩ :=
  c10_download_new_skips_no_data 2012 ⟨2012, ⟨0⟩⟩ (by decide)
